import Mathlib

/-!
Verification development for the quiz DTO layer (`front/src/quiz/util/dto.py`).

The module converts persisted quiz entities (sections, tests, questions,
answers, quiz sessions) into presentation DTOs.  We shallowly embed the
relevant Python functions and constructors as Lean functions: JSON-like
Python values become an inductive `PyVal`, database tables become lists of
records, `first()` on a filtered query becomes `List.find?`, and the one
mutating constructor (`PracticeQuestionDto.__init__`) becomes a state
transformer on the database record.  External collaborators (the JSON
parser, `random.shuffle`, HTML unescaping) are abstracted as inputs: the
parse outcome is carried as data, the shuffle is a parameter constrained by
its library contract (it permutes), and unescaping is an arbitrary function.
-/

/-- Python runtime errors that the embedded code can raise and does not
catch (only `json.JSONDecodeError` is ever caught in this module). -/
inductive PyErr where
  | attributeError
  | typeError
deriving DecidableEq, Repr

/-- JSON-like Python values: integers, strings, dicts (insertion-ordered
association lists) and lists.  Numbers are modelled as integers. -/
inductive PyVal : Type where
  | int (n : Int)
  | str (s : String)
  | dict (entries : List (String × PyVal))
  | list (items : List PyVal)

/-- `d.get(key, default)` on a Python dict: value of the first matching
key, else the default. -/
def dictGet (entries : List (String × PyVal)) (key : String) (dflt : PyVal) : PyVal :=
  match entries.find? (fun e => e.1 == key) with
  | some e => e.2
  | none => dflt

/-- The guarded points value of `calculate_max_score`:
`points if isinstance(points, (int, float)) and points > 0 else 0`. -/
def validPoints : PyVal → Int
  | .int n => if 0 < n then n else 0
  | _ => 0

mutual

/-- The inner `recursive_sum` of `calculate_max_score`: on a dict, add the
guarded `points` value and recurse into every value; on a list, recurse
into every item; otherwise 0. -/
def recursive_sum : PyVal → Int
  | .dict entries => validPoints (dictGet entries "points" (.int 0)) + sumEntries entries
  | .list items => sumItems items
  | .int _ => 0
  | .str _ => 0

/-- Sum of `recursive_sum` over the values of a dict. -/
def sumEntries : List (String × PyVal) → Int
  | [] => 0
  | e :: rest => recursive_sum e.2 + sumEntries rest

/-- Sum of `recursive_sum` over the items of a list. -/
def sumItems : List PyVal → Int
  | [] => 0
  | v :: rest => recursive_sum v + sumItems rest

end

/-- `calculate_max_score(requirements)` from `dto.py`. -/
def calculate_max_score (requirements : PyVal) : Int :=
  recursive_sum requirements

mutual

/-- All mapping nodes (their entry lists) occurring anywhere in a value:
the value itself when it is a dict, plus every mapping reached through
dict values and list items. -/
def allDicts : PyVal → List (List (String × PyVal))
  | .dict entries => entries :: allDictsOfEntries entries
  | .list items => allDictsOfItems items
  | .int _ => []
  | .str _ => []

/-- Mapping nodes reachable through the values of a dict. -/
def allDictsOfEntries : List (String × PyVal) → List (List (String × PyVal))
  | [] => []
  | e :: rest => allDicts e.2 ++ allDictsOfEntries rest

/-- Mapping nodes reachable through the items of a list. -/
def allDictsOfItems : List PyVal → List (List (String × PyVal))
  | [] => []
  | v :: rest => allDicts v ++ allDictsOfItems rest

end

/-- The guarded `points` contribution of one mapping node. -/
def pointsScore (entries : List (String × PyVal)) : Int :=
  validPoints (dictGet entries "points" (.int 0))

/-- The specification reading of `calculate_max_score`: the sum, over every
mapping encountered at any depth, of its `points` value when that value is
numeric and positive (0 otherwise). -/
def maxScoreSpec (v : PyVal) : Int :=
  ((allDicts v).map pointsScore).sum

/-- The worked example of the spec:
`[{"points": 5}, {"a": {"points": 3}, "b": [{"points": -1}, {"points": "x"}]}]`. -/
def exampleRequirements : PyVal :=
  .list
    [ .dict [("points", .int 5)],
      .dict
        [ ("a", .dict [("points", .int 3)]),
          ("b", .list [.dict [("points", .int (-1))], .dict [("points", .str "x")]]) ] ]

/-- Outcome of `json.loads` on a stored `meta_description` string, carried
as data because JSON parsing is an out-of-scope external collaborator:
either the parse failed (`json.JSONDecodeError`) or produced a value. -/
inductive MetaParse where
  | malformed
  | parsed (v : PyVal)

/-- Python `sum` over a list of values: adds integers left to right and
raises `TypeError` on the first non-integer. -/
def pySum : List PyVal → Except PyErr Int
  | [] => .ok 0
  | .int n :: rest => (pySum rest).map (fun r => n + r)
  | _ :: _ => .error .typeError

/-- `PracticeQuestion` entity: availability flags, description and the guid
of the template network (`start_configuration`). -/
structure PracticeQuestion where
  description : String
  available_host : Bool
  available_l1_hub : Bool
  available_server : Bool
  available_l2_switch : Bool
  available_l3_router : Bool
  start_configuration : String
deriving DecidableEq, Repr

/-- `Question` entity: the fields `dto.py` reads. -/
structure Question where
  id : Nat
  text : String
  question_type : Int
  images : List String
  practice_question : Option PracticeQuestion
deriving DecidableEq, Repr

/-- `Test` entity: the field `dto.py` reads from `section.test`. -/
structure Test where
  is_retakeable : Bool
deriving DecidableEq, Repr

/-- Naive or timezone-aware Python `datetime`, in minutes.  A naive value
carries its wall-clock reading; an aware value carries the UTC instant it
denotes (comparison of aware datetimes compares instants, and
`astimezone` preserves the instant). -/
inductive PyDatetime where
  | naive (wall : Int)
  | aware (instant : Int)
deriving DecidableEq, Repr

/-- The fixed offset of the regional timezone (`Europe/Moscow`, UTC+3), in
minutes. -/
def MOSCOW_OFFSET : Int := 180

/-- `Section` entity: the fields `dto.py` reads.  `meta_description = none`
models an unset (or empty, hence falsy) stored string; otherwise the parse
outcome of the stored JSON text is carried. -/
structure Section where
  id : Nat
  meta_description : Option MetaParse
  questions : List Question
  results_available_from : Option PyDatetime
  is_exam : Bool
  test : Test

/-- `calculate_question_count(section)` from `dto.py`: with a (truthy)
`meta_description`, parse it and sum the values of the resulting dict,
returning 0 only when the parse itself fails; `.values()` on a non-dict
parse raises `AttributeError` and a non-integer value makes `sum` raise
`TypeError`, neither of which is caught.  Without a `meta_description`,
return the number of attached questions. -/
def calculate_question_count (sec : Section) : Except PyErr Int :=
  match sec.meta_description with
  | some meta =>
    match meta with
    | .malformed => .ok 0
    | .parsed meta_data =>
      match meta_data with
      | .dict entries => pySum (entries.map Prod.snd)
      | _ => .error .attributeError
  | none => .ok (sec.questions.length : Int)

/-- Conversion used by `is_answer_available`: a naive threshold is
reinterpreted in the regional timezone (`replace(tzinfo=MOSCOW_TZ)`), an
aware one is converted to it (`astimezone`), which preserves the instant. -/
def toRegionalInstant : PyDatetime → Int
  | .naive wall => wall - MOSCOW_OFFSET
  | .aware instant => instant

/-- `is_answer_available(section)` from `dto.py`, with the current UTC
instant (`datetime.now(MOSCOW_TZ)`) passed explicitly. -/
def is_answer_available (msec : Option Section) (nowInstant : Int) : Bool :=
  match msec with
  | none => true
  | some sec =>
    match sec.results_available_from with
    | none => true
    | some raf => decide (toRegionalInstant raf ≤ nowInstant)

/-- Python truthiness of an optional string column: `None` and the empty
string are falsy, every other string is truthy. -/
def pyTruthyStr : Option String → Bool
  | none => false
  | some s => !(s == "")

/-- `Answer` entity: the fields `dto.py` reads. -/
structure Answer where
  id : Nat
  question_id : Nat
  is_deleted : Bool
  is_correct : Bool
  variant : String
  left : String
  right : String
deriving DecidableEq, Repr

/-- `Network` entity (from `miminet_model`): the fields `dto.py` reads and
writes. -/
structure Network where
  guid : String
  author_id : Nat
  network : String
  title : String
  description : String
  preview_uri : String
  is_task : Bool
deriving DecidableEq, Repr

/-- `SessionQuestion` entity: one question instance inside an attempt. -/
structure SessionQuestion where
  id : Nat
  quiz_session_id : Nat
  is_correct : Option Bool
  network_guid : Option String
deriving DecidableEq, Repr

/-- `QuizSession` entity: one attempt of a user at a section.
`created_on` and `finished_at` are instants in minutes. -/
structure QuizSession where
  id : Nat
  created_by_id : Nat
  section_id : Nat
  guid : Option String
  created_on : Int
  finished_at : Option Int
deriving DecidableEq, Repr

/-- The database tables this module queries and (for networks and
session-question bindings) updates. -/
structure DB where
  networks : List Network
  session_questions : List SessionQuestion
  answers : List Answer
  quiz_sessions : List QuizSession
  sections : List Section

/-- The re-escaping applied to the serialized network before embedding:
`net_copy.network.replace('\\"', '"').replace('"', '\\"')`. -/
def reescapeQuotes (s : String) : String :=
  (s.replace "\\\"" "\"").replace "\"" "\\\""

/-- The view object `PracticeQuestionDto` exposes. -/
structure PracticeQuestionDto where
  description : String
  available_host : Bool
  available_l1_hub : Bool
  available_server : Bool
  available_l2_switch : Bool
  available_l3_router : Bool
  start_configuration : String
  network_guid : String
deriving DecidableEq, Repr

/-- `PracticeQuestionDto.__init__` as a state transformer.  `freshGuid`
stands for the `uuid.uuid4()` drawn in the copy branch; `none` models an
uncaught `AttributeError` (session question or template network not
found).  On a session question with a truthy bound `network_guid` the bound
network is loaded and the database is untouched; otherwise the template
network named by `practice_question.start_configuration` is copied into a
new row owned by `user_id` with description `"Network copy"`, and the new
guid is written onto the session question. -/
def mkPracticeQuestionDto (user_id : Nat) (practice_question : PracticeQuestion)
    (session_question_id : Nat) (freshGuid : String) (db : DB) :
    Option (PracticeQuestionDto × DB) :=
  match db.session_questions.find? (fun sq => sq.id == session_question_id) with
  | none => none
  | some session_question =>
    if pyTruthyStr session_question.network_guid then
      match db.networks.find? (fun n => some n.guid == session_question.network_guid) with
      | none => none
      | some net_copy =>
        some
          ({ description := practice_question.description,
             available_host := practice_question.available_host,
             available_l1_hub := practice_question.available_l1_hub,
             available_server := practice_question.available_server,
             available_l2_switch := practice_question.available_l2_switch,
             available_l3_router := practice_question.available_l3_router,
             start_configuration := reescapeQuotes net_copy.network,
             network_guid := net_copy.guid }, db)
    else
      match db.networks.find? (fun n => n.guid == practice_question.start_configuration) with
      | none => none
      | some net =>
        let net_copy : Network :=
          { guid := freshGuid, author_id := user_id, network := net.network,
            title := net.title, description := "Network copy",
            preview_uri := net.preview_uri, is_task := true }
        let db' : DB :=
          { db with
            networks := db.networks ++ [net_copy],
            session_questions := db.session_questions.map
              (fun sq =>
                if sq.id == session_question_id
                then { sq with network_guid := some net_copy.guid } else sq) }
        some
          ({ description := practice_question.description,
             available_host := practice_question.available_host,
             available_l1_hub := practice_question.available_l1_hub,
             available_server := practice_question.available_server,
             available_l2_switch := practice_question.available_l2_switch,
             available_l3_router := practice_question.available_l3_router,
             start_configuration := reescapeQuotes net_copy.network,
             network_guid := net_copy.guid }, db')

/-- `get_question_type`: `{0: "practice", 1: "variable", 2: "sorting",
3: "matching"}.get(question_type, "")`. -/
def get_question_type (question_type : Int) : String :=
  if question_type == 0 then "practice"
  else if question_type == 1 then "variable"
  else if question_type == 2 then "sorting"
  else if question_type == 3 then "matching"
  else ""

/-- The dict `AnswerDto.to_dict` produces: a `variant` key, or a
`left`/`right` pair for matching questions. -/
inductive AnswerDict where
  | variantKey (variant : String)
  | matchingKeys (left right : String)
deriving DecidableEq, Repr

/-- `AnswerDto(question_type, answer).to_dict()`. -/
def answerDict (question_type : String) (answer : Answer) : AnswerDict :=
  if question_type == "matching" then .matchingKeys answer.left answer.right
  else .variantKey answer.variant

/-- `Answer.query.filter_by(question_id=question.id, is_deleted=False).all()`. -/
def filteredAnswers (db : DB) (question_id : Nat) : List Answer :=
  db.answers.filter (fun a => a.question_id == question_id && a.is_deleted == false)

/-- The view object `QuestionDto` exposes.  `practice_question = none` and
`answers = none` model attributes the constructor never set. -/
structure QuestionDtoView where
  question_type : String
  question_text : String
  correct_count : Nat
  images : List String
  practice_question : Option PracticeQuestionDto
  answers : Option (List AnswerDict)
deriving DecidableEq, Repr

/-- `QuestionDto.__init__` as a state transformer.  `unescape` stands for
`Markup.unescape` and `shuffle` for the in-place `random.shuffle`
reordering of this call (the library contract constrains it to a
permutation).  For a practice question the practice flow runs and no
answer list is attached; for every other type the non-deleted answers are
fetched, the correct ones counted for "variable", and the answer dicts
shuffled. -/
def mkQuestionDto (unescape : String → String)
    (shuffle : List AnswerDict → List AnswerDict) (user_id : Nat)
    (question : Question) (session_question_id : Nat) (freshGuid : String)
    (db : DB) : Option (QuestionDtoView × DB) :=
  let qt := get_question_type question.question_type
  if qt == "practice" then
    match question.practice_question with
    | none => none
    | some pq =>
      match mkPracticeQuestionDto user_id pq session_question_id freshGuid db with
      | none => none
      | some (pdto, db') =>
        some
          ({ question_type := qt, question_text := unescape question.text,
             correct_count := 0, images := question.images,
             practice_question := some pdto, answers := none }, db')
  else
    let filtered := filteredAnswers db question.id
    let correct_count :=
      if qt == "variable" then (filtered.filter (fun a => a.is_correct)).length else 0
    some
      ({ question_type := qt, question_text := unescape question.text,
         correct_count := correct_count, images := question.images,
         practice_question := none,
         answers := some (shuffle (filtered.map (answerDict qt))) }, db)

/-- The first row of a query ordered descending by the key order `lt`:
the element maximal for `lt`, the earliest of the maxima on ties. -/
def pickFirstBy (lt : α → α → Bool) : List α → Option α
  | [] => none
  | x :: xs =>
    match pickFirstBy lt xs with
    | none => some x
    | some y => if lt x y then some y else some x

/-- SQL ordering of a nullable integer column with `NULL` below every
value (the `NULLS LAST` reading of `ORDER BY ... DESC`). -/
def optIntLt : Option Int → Option Int → Bool
  | none, none => false
  | none, some _ => true
  | some _, none => false
  | some a, some b => decide (a < b)

/-- `QuizSession.query.filter(created_by_id == current_user.id)
.filter(section_id == section_id)`. -/
def current_user_sessions (db : DB) (current_user_id : Nat) (section_id : Nat) :
    List QuizSession :=
  db.quiz_sessions.filter
    (fun s => s.created_by_id == current_user_id && s.section_id == section_id)

/-- The `session` variable of `SectionDto.__init__`:
`current_user_sessions.order_by(QuizSession.finished_at.desc()).first()`.
Unfinished attempts are not filtered out; their `NULL` finish time sorts
below every set one. -/
def lastSessionChoice (db : DB) (current_user_id : Nat) (section_id : Nat) :
    Option QuizSession :=
  pickFirstBy (fun a b => optIntLt a.finished_at b.finished_at)
    (current_user_sessions db current_user_id section_id)

/-- The `unfinished_session` variable of `SectionDto.__init__`: unfinished
attempts of the user at the section, most recently created first. -/
def unfinishedSessionChoice (db : DB) (current_user_id : Nat) (section_id : Nat) :
    Option QuizSession :=
  pickFirstBy (fun a b => decide (a.created_on < b.created_on))
    ((current_user_sessions db current_user_id section_id).filter
      (fun s => s.finished_at.isNone))

/-- The `session.sessions` relationship: the session questions of one
attempt. -/
def sessionQuestionsOf (db : DB) (s : QuizSession) : List SessionQuestion :=
  db.session_questions.filter (fun q => q.quiz_session_id == s.id)

/-- The `unanswered` query of `SectionDto.__init__`: session questions of
the given attempt with `is_correct` still null, lowest id first. -/
def firstUnansweredChoice (db : DB) (sessionId : Nat) : Option SessionQuestion :=
  pickFirstBy (fun a b => decide (b.id < a.id))
    (db.session_questions.filter
      (fun q => q.quiz_session_id == sessionId && q.is_correct.isNone))

/-- The view object `SectionDto` exposes.  `last_correct_count = none`,
`session_guid = none` and `last_question = none` model attributes the
constructor never set. -/
structure SectionDto where
  section_id : Nat
  section_name : String
  timer : String
  description : String
  question_count : Int
  is_exam : Bool
  answer_available : Bool
  results_available_from : Option PyDatetime
  sessions_count : Nat
  last_correct_count : Option Nat
  session_guid : Option String
  there_is_unfinished : Bool
  last_question : Option Nat
deriving DecidableEq, Repr

/-- `SectionDto.__init__`.  `none` models the uncaught `AttributeError`
when `Section.query.get(section_id)` finds no row.  The summary fields are
computed from the current user's attempts at the section; the blocking
flag is set exactly when an unfinished attempt exists, the section is an
exam and the parent test disallows retakes. -/
def mkSectionDto (db : DB) (current_user_id : Nat) (section_id : Nat)
    (section_name : String) (timer : String) (description : String)
    (question_count : Int) (is_exam : Bool) (answer_avail : Bool)
    (results_available_from : Option PyDatetime) : Option SectionDto :=
  let cus := current_user_sessions db current_user_id section_id
  let sessionChoice := lastSessionChoice db current_user_id section_id
  let last_correct_count := sessionChoice.map
    (fun s => ((sessionQuestionsOf db s).filter (fun q => q.is_correct == some true)).length)
  let session_guid := sessionChoice.bind
    (fun s => if pyTruthyStr s.guid then s.guid else none)
  match db.sections.find? (fun s => s.id == section_id) with
  | none => none
  | some sec =>
    let unfinished := unfinishedSessionChoice db current_user_id section_id
    let blocking := unfinished.isSome && is_exam && !sec.test.is_retakeable
    let last_question :=
      if blocking then
        unfinished.bind (fun u => (firstUnansweredChoice db u.id).map (fun q => q.id))
      else none
    some
      { section_id := section_id, section_name := section_name, timer := timer,
        description := description, question_count := question_count,
        is_exam := is_exam, answer_available := answer_avail,
        results_available_from := results_available_from,
        sessions_count := cus.length,
        last_correct_count := last_correct_count, session_guid := session_guid,
        there_is_unfinished := blocking, last_question := last_question }

/-- The data holder `AnswerResultDto`. -/
structure AnswerResultDto where
  explanation : PyVal
  is_correct : Bool

/-- The dict shape `AnswerResultDto.to_dict` returns. -/
structure AnswerResultDict where
  explanation : PyVal
  is_correct : Bool

/-- `AnswerResultDto.to_dict`: a list-valued explanation is wrapped in one
extra list layer, anything else passes through unchanged. -/
def AnswerResultDto.to_dict (d : AnswerResultDto) : AnswerResultDict :=
  match d.explanation with
  | .list xs => { explanation := .list [.list xs], is_correct := d.is_correct }
  | e => { explanation := e, is_correct := d.is_correct }

/-- Discriminates the `isinstance(self.explanation, list)` test. -/
def isListVal : PyVal → Bool
  | .list _ => true
  | _ => false

/-- Whether a value is a Python dict (the only shape with a `.values()`
method among the JSON results). -/
def isDictVal : PyVal → Bool
  | .dict _ => true
  | _ => false

/-- An exam section whose parent test disallows retakes. -/
def examSection : Section :=
  { id := 1, meta_description := none, questions := [],
    results_available_from := none, is_exam := true,
    test := { is_retakeable := false } }

/-- An unfinished attempt of user 1 at section 1. -/
def examSession : QuizSession :=
  { id := 10, created_by_id := 1, section_id := 1, guid := none,
    created_on := 100, finished_at := none }

/-- Database with one unfinished exam attempt. -/
def examDB : DB :=
  { networks := [], session_questions := [], answers := [],
    quiz_sessions := [examSession], sections := [examSection] }

/-- A template network ("task") authored by user 9. -/
def templateNet : Network :=
  { guid := "G", author_id := 9, network := "serialized \"net\"", title := "T",
    description := "template", preview_uri := "p.png", is_task := true }

/-- The practice question referencing `templateNet` as its start
configuration. -/
def practiceQ : PracticeQuestion :=
  { description := "d", available_host := true, available_l1_hub := false,
    available_server := true, available_l2_switch := false,
    available_l3_router := true, start_configuration := "G" }

/-- Database with the template network and one session question (id 5)
with no bound network. -/
def practiceDB : DB :=
  { networks := [templateNet],
    session_questions :=
      [{ id := 5, quiz_session_id := 2, is_correct := none,
         network_guid := none }],
    answers := [], quiz_sessions := [], sections := [] }

/-- A "variable"-type question. -/
def variableQuestion : Question :=
  { id := 7, text := "t", question_type := 1, images := [],
    practice_question := none }

/-- A question carrying the unknown type code 7. -/
def unknownTypeQuestion : Question :=
  { id := 7, text := "t", question_type := 7, images := [],
    practice_question := none }

/-- Two live answers and one deleted answer for question 7. -/
def answersDB : DB :=
  { networks := [], session_questions := [],
    answers :=
      [{ id := 1, question_id := 7, is_deleted := false, is_correct := true,
         variant := "A", left := "", right := "" },
       { id := 2, question_id := 7, is_deleted := true, is_correct := false,
         variant := "B", left := "", right := "" },
       { id := 3, question_id := 7, is_deleted := false, is_correct := false,
         variant := "C", left := "", right := "" }],
    quiz_sessions := [], sections := [] }

/-- A plain retakeable, non-exam section. -/
def mixedSection : Section :=
  { id := 1, meta_description := none, questions := [],
    results_available_from := none, is_exam := false,
    test := { is_retakeable := true } }

/-- A user with one unfinished and one finished attempt at section 1; the
finished one has a guid and one correctly answered question. -/
def mixedDB : DB :=
  { networks := [],
    session_questions :=
      [{ id := 40, quiz_session_id := 21, is_correct := some true,
         network_guid := none },
       { id := 41, quiz_session_id := 21, is_correct := some false,
         network_guid := none }],
    answers := [],
    quiz_sessions :=
      [{ id := 20, created_by_id := 1, section_id := 1, guid := none,
         created_on := 5, finished_at := none },
       { id := 21, created_by_id := 1, section_id := 1, guid := some "sg",
         created_on := 6, finished_at := some 50 }],
    sections := [mixedSection] }

/-- The section view computed over `mixedDB`. -/
def mixedDto : SectionDto :=
  { section_id := 1, section_name := "s", timer := "t", description := "d",
    question_count := 0, is_exam := false, answer_available := true,
    results_available_from := none, sessions_count := 2,
    last_correct_count := some 1, session_guid := some "sg",
    there_is_unfinished := false, last_question := none }

/-- A user whose only attempt at section 1 is unfinished but contains one
correctly answered question. -/
def onlyUnfinishedDB : DB :=
  { networks := [],
    session_questions :=
      [{ id := 30, quiz_session_id := 20, is_correct := some true,
         network_guid := none }],
    answers := [],
    quiz_sessions :=
      [{ id := 20, created_by_id := 1, section_id := 1, guid := none,
         created_on := 5, finished_at := none }],
    sections :=
      [{ id := 1, meta_description := none, questions := [],
         results_available_from := none, is_exam := false,
         test := { is_retakeable := true } }] }

mutual

/-- `recursive_sum` computes the specification sum over all mapping nodes. -/
theorem recursive_sum_eq : ∀ v, recursive_sum v = ((allDicts v).map pointsScore).sum
  | .int _ => by simp [recursive_sum, allDicts]
  | .str _ => by simp [recursive_sum, allDicts]
  | .dict es => by
    simp [recursive_sum, allDicts, pointsScore, sumEntries_eq es]
  | .list items => by
    simp [recursive_sum, allDicts, sumItems_eq items]

/-- Dict-values case of `recursive_sum_eq`. -/
theorem sumEntries_eq :
    ∀ es, sumEntries es = ((allDictsOfEntries es).map pointsScore).sum
  | [] => by simp [sumEntries, allDictsOfEntries]
  | e :: rest => by
    simp [sumEntries, allDictsOfEntries, recursive_sum_eq e.2, sumEntries_eq rest]

/-- List-items case of `recursive_sum_eq`. -/
theorem sumItems_eq :
    ∀ items, sumItems items = ((allDictsOfItems items).map pointsScore).sum
  | [] => by simp [sumItems, allDictsOfItems]
  | v :: rest => by
    simp [sumItems, allDictsOfItems, recursive_sum_eq v, sumItems_eq rest]

end

/-- C2: `calculate_max_score` equals the recursive sum over the
mapping/sequence tree that, at each mapping, adds its `points` value when
numeric and positive (else 0), recurses into all mapping values and
sequence elements, and yields 0 on any other input; the worked example
evaluates to 8. -/
theorem calculate_max_score_correct :
    (∀ v, calculate_max_score v = maxScoreSpec v) ∧
      calculate_max_score exampleRequirements = 8 :=
  ⟨fun v => recursive_sum_eq v, by decide⟩

/-- C3: availability is exactly `now ≥ threshold` with the threshold
interpreted in the fixed regional timezone: an unset threshold is always
available, a naive one is read as regional wall-clock time, and an aware
one is compared as the instant it denotes. -/
theorem is_answer_available_spec (sec : Section) (now : Int) :
    (is_answer_available (some sec) now = true ↔
        ∀ d, sec.results_available_from = some d → toRegionalInstant d ≤ now) ∧
      (sec.results_available_from = none → is_answer_available (some sec) now = true) ∧
      (∀ w, sec.results_available_from = some (.naive w) →
        (is_answer_available (some sec) now = true ↔ w - MOSCOW_OFFSET ≤ now)) ∧
      (∀ i, sec.results_available_from = some (.aware i) →
        (is_answer_available (some sec) now = true ↔ i ≤ now)) := by
  cases hra : sec.results_available_from with
  | none => simp [is_answer_available, hra]
  | some raf =>
    cases raf with
    | naive w => simp [is_answer_available, hra, toRegionalInstant]
    | aware i => simp [is_answer_available, hra, toRegionalInstant]

/-- Concrete instantiation of `is_answer_available_spec`: a naive
threshold of 300 regional minutes (instant 120) is available at instant
200. -/
theorem is_answer_available_spec_witness :
    is_answer_available
      (some { id := 1, meta_description := none, questions := [],
              results_available_from := some (.naive 300), is_exam := false,
              test := { is_retakeable := true } }) 200 = true :=
  ((is_answer_available_spec
      { id := 1, meta_description := none, questions := [],
        results_available_from := some (.naive 300), is_exam := false,
        test := { is_retakeable := true } } 200).2.2.1 300 rfl).mpr (by decide)

/-- Sum of a list of Python integers succeeds and is the integer sum. -/
theorem pySum_ints : ∀ ns : List Int, pySum (ns.map PyVal.int) = .ok ns.sum
  | [] => rfl
  | n :: rest => by simp [pySum, pySum_ints rest, Except.map]

/-- C5: with no `meta_description` the count is the number of attached
questions; with one that fails to parse it is 0; with one parsing to a
JSON object with integer values it is the sum of those values. -/
theorem calculate_question_count_spec (sec : Section) :
    (sec.meta_description = none →
        calculate_question_count sec = .ok (sec.questions.length : Int)) ∧
      (sec.meta_description = some .malformed →
        calculate_question_count sec = .ok 0) ∧
      (∀ (entries : List (String × PyVal)) (ns : List Int),
        sec.meta_description = some (.parsed (.dict entries)) →
        entries.map Prod.snd = ns.map PyVal.int →
        calculate_question_count sec = .ok ns.sum) := by
  refine ⟨fun h => ?_, fun h => ?_, fun entries ns h hvals => ?_⟩
  · simp [calculate_question_count, h]
  · simp [calculate_question_count, h]
  · simp [calculate_question_count, h, hvals, pySum_ints]

/-- Concrete instantiation of `calculate_question_count_spec` on all three
branches. -/
theorem calculate_question_count_spec_witness :
    calculate_question_count
        { id := 1, meta_description := none,
          questions := [{ id := 1, text := "q", question_type := 1, images := [],
                          practice_question := none }],
          results_available_from := none, is_exam := false,
          test := { is_retakeable := true } } = .ok 1 ∧
      calculate_question_count
        { id := 2, meta_description := some .malformed, questions := [],
          results_available_from := none, is_exam := false,
          test := { is_retakeable := true } } = .ok 0 ∧
      calculate_question_count
        { id := 3,
          meta_description := some (.parsed (.dict [("a", .int 3), ("b", .int 4)])),
          questions := [], results_available_from := none, is_exam := false,
          test := { is_retakeable := true } } = .ok 7 :=
  ⟨(calculate_question_count_spec _).1 rfl,
   (calculate_question_count_spec _).2.1 rfl,
   (calculate_question_count_spec _).2.2 [("a", .int 3), ("b", .int 4)] [3, 4] rfl rfl⟩

/-- C10: only JSON decode failures are recovered; a `meta_description`
that parses to anything but a mapping makes `.values()` raise an uncaught
`AttributeError` instead of falling back. -/
theorem calculate_question_count_raises_on_non_mapping (sec : Section) (v : PyVal)
    (hmeta : sec.meta_description = some (.parsed v)) (hnd : isDictVal v = false) :
    calculate_question_count sec = .error .attributeError := by
  cases v with
  | dict entries => simp [isDictVal] at hnd
  | int n => simp [calculate_question_count, hmeta]
  | str s => simp [calculate_question_count, hmeta]
  | list items => simp [calculate_question_count, hmeta]

/-- Concrete instantiation of
`calculate_question_count_raises_on_non_mapping`: the valid JSON `[1, 2]`
raises. -/
theorem calculate_question_count_raises_witness :
    calculate_question_count
        { id := 4, meta_description := some (.parsed (.list [.int 1, .int 2])),
          questions := [], results_available_from := none, is_exam := false,
          test := { is_retakeable := true } } = .error .attributeError :=
  calculate_question_count_raises_on_non_mapping _ (.list [.int 1, .int 2]) rfl rfl

/-- C9: `AnswerResultDto.to_dict` wraps a sequence-valued explanation in
one extra list layer and passes a scalar explanation through unchanged;
`is_correct` passes through in both cases. -/
theorem answer_result_to_dict_asymmetry (d : AnswerResultDto) :
    (∀ xs, d.explanation = .list xs →
        d.to_dict = { explanation := .list [.list xs], is_correct := d.is_correct }) ∧
      (isListVal d.explanation = false →
        d.to_dict = { explanation := d.explanation, is_correct := d.is_correct }) := by
  obtain ⟨e, c⟩ := d
  cases e with
  | int n => exact ⟨by simp [AnswerResultDto.to_dict], fun _ => rfl⟩
  | str s => exact ⟨by simp [AnswerResultDto.to_dict], fun _ => rfl⟩
  | dict es => exact ⟨by simp [AnswerResultDto.to_dict], fun _ => rfl⟩
  | list xs =>
    refine ⟨fun ys hys => ?_, fun h => by simp [isListVal] at h⟩
    cases hys
    rfl

/-- Concrete instantiation of `answer_result_to_dict_asymmetry` on a list
explanation and on a scalar one. -/
theorem answer_result_to_dict_asymmetry_witness :
    AnswerResultDto.to_dict { explanation := .list [.int 1], is_correct := true } =
        { explanation := .list [.list [.int 1]], is_correct := true } ∧
      AnswerResultDto.to_dict { explanation := .str "ok", is_correct := false } =
        { explanation := .str "ok", is_correct := false } :=
  ⟨(answer_result_to_dict_asymmetry
      { explanation := .list [.int 1], is_correct := true }).1 [.int 1] rfl,
   (answer_result_to_dict_asymmetry
      { explanation := .str "ok", is_correct := false }).2 rfl⟩

/-- The first row of a non-empty ordered query exists. -/
theorem pickFirstBy_isSome (lt : α → α → Bool) (l : List α) :
    (pickFirstBy lt l).isSome = true ↔ l ≠ [] := by
  cases l with
  | nil => simp [pickFirstBy]
  | cons x xs =>
    have hsome : (pickFirstBy lt (x :: xs)).isSome = true := by
      simp only [pickFirstBy]
      cases pickFirstBy lt xs with
      | none => rfl
      | some y => by_cases h : lt x y = true <;> simp [h]
    simp [hsome]

/-- The first row of an ordered query belongs to the queried list. -/
theorem pickFirstBy_mem (lt : α → α → Bool) :
    ∀ (l : List α) (x : α), pickFirstBy lt l = some x → x ∈ l
  | [], x => by simp [pickFirstBy]
  | y :: ys, x => by
    simp only [pickFirstBy]
    cases h : pickFirstBy lt ys with
    | none =>
      intro hx
      cases hx
      exact List.mem_cons_self y ys
    | some z =>
      by_cases hlt : lt y z = true <;> simp [hlt] <;> intro hx
      · exact Or.inr (hx ▸ pickFirstBy_mem lt ys z h)
      · exact Or.inl hx.symm

/-- The first row of a query ordered descending is maximal: no member of
the list is strictly above it, provided the order is irreflexive,
asymmetric and negatively transitive (any total preorder's strict part). -/
theorem pickFirstBy_max (lt : α → α → Bool)
    (hirr : ∀ a, lt a a = false)
    (hasym : ∀ a b, lt a b = true → lt b a = false)
    (hnt : ∀ a b c, lt a b = false → lt b c = false → lt a c = false) :
    ∀ (l : List α) (x : α), pickFirstBy lt l = some x → ∀ y ∈ l, lt x y = false
  | [], x => by simp [pickFirstBy]
  | a :: as, x => by
    simp only [pickFirstBy]
    cases h : pickFirstBy lt as with
    | none =>
      show some a = some x → ∀ y ∈ a :: as, lt x y = false
      intro hx y hy
      injection hx with hx
      subst hx
      have hnil : as = [] := by
        by_contra hne
        have hs := (pickFirstBy_isSome lt as).mpr hne
        rw [h] at hs
        simp at hs
      subst hnil
      rcases List.mem_singleton.mp hy with rfl
      exact hirr _
    | some z =>
      show (if lt a z = true then some z else some a) = some x →
        ∀ y ∈ a :: as, lt x y = false
      have ih := pickFirstBy_max lt hirr hasym hnt as z h
      by_cases hlt : lt a z = true
      · rw [if_pos hlt]
        intro hx y hy
        injection hx with hx
        subst hx
        rcases List.mem_cons.mp hy with rfl | hmem
        · exact hasym _ _ hlt
        · exact ih y hmem
      · rw [if_neg hlt]
        intro hx y hy
        injection hx with hx
        subst hx
        rcases List.mem_cons.mp hy with rfl | hmem
        · exact hirr _
        · exact hnt _ z y (by simpa using hlt) (ih y hmem)

/-- An unfinished attempt is selected exactly when one exists. -/
theorem unfinishedSessionChoice_isSome (db : DB) (uid sid : Nat) :
    (unfinishedSessionChoice db uid sid).isSome = true ↔
      ∃ s ∈ current_user_sessions db uid sid, s.finished_at = none := by
  rw [unfinishedSessionChoice, pickFirstBy_isSome]
  rw [ne_eq, List.filter_eq_nil_iff]
  push_neg
  constructor
  · rintro ⟨s, hs, hfin⟩
    exact ⟨s, hs, Option.isNone_iff_eq_none.mp hfin⟩
  · rintro ⟨s, hs, hfin⟩
    exact ⟨s, hs, Option.isNone_iff_eq_none.mpr hfin⟩

/-- C4: the blocking flag `there_is_unfinished` is true exactly when the
current user has an unfinished attempt at the section, the section is an
exam and the parent test disallows retakes; it is false in each of the
other combinations. -/
theorem there_is_unfinished_iff (db : DB) (uid sid : Nat)
    (nm tm ds : String) (qc : Int) (is_exam answer_avail : Bool)
    (raf : Option PyDatetime) (sec : Section) (dto : SectionDto)
    (hsec : db.sections.find? (fun s => s.id == sid) = some sec)
    (hdto : mkSectionDto db uid sid nm tm ds qc is_exam answer_avail raf = some dto) :
    dto.there_is_unfinished = true ↔
      (∃ s ∈ current_user_sessions db uid sid, s.finished_at = none) ∧
        is_exam = true ∧ sec.test.is_retakeable = false := by
  simp only [mkSectionDto, hsec, Option.some.injEq] at hdto
  subst hdto
  simp only [Bool.and_eq_true, Bool.not_eq_eq_eq_not, Bool.not_true,
    unfinishedSessionChoice_isSome]
  constructor
  · rintro ⟨⟨hex, hexam⟩, hret⟩
    exact ⟨hex, hexam, by simpa using hret⟩
  · rintro ⟨hex, hexam, hret⟩
    exact ⟨⟨hex, hexam⟩, by simpa using hret⟩

/-- Concrete instantiation of `there_is_unfinished_iff`: an unfinished
attempt at a non-retakeable exam section blocks. -/
theorem there_is_unfinished_iff_witness :
    ∃ dto, mkSectionDto examDB 1 1 "s" "t" "d" 0 true true none = some dto ∧
      dto.there_is_unfinished = true := by
  have hdto : mkSectionDto examDB 1 1 "s" "t" "d" 0 true true none =
      some { section_id := 1, section_name := "s", timer := "t", description := "d",
             question_count := 0, is_exam := true, answer_available := true,
             results_available_from := none, sessions_count := 1,
             last_correct_count := some 0, session_guid := none,
             there_is_unfinished := true, last_question := none } := by decide
  refine ⟨_, hdto, ?_⟩
  exact (there_is_unfinished_iff examDB 1 1 "s" "t" "d" 0 true true none
      examSection _ rfl hdto).mpr
    ⟨⟨examSession, by decide, rfl⟩, rfl, rfl⟩

/-- The session ordering key is irreflexive. -/
theorem optIntLt_irrefl (a : Option Int) : optIntLt a a = false := by
  cases a <;> simp [optIntLt]

/-- The session ordering key is asymmetric. -/
theorem optIntLt_asymm (a b : Option Int) :
    optIntLt a b = true → optIntLt b a = false := by
  cases a <;> cases b <;> simp [optIntLt]
  omega

/-- The negation of the session ordering key is transitive. -/
theorem optIntLt_negtrans (a b c : Option Int) :
    optIntLt a b = false → optIntLt b c = false → optIntLt a c = false := by
  cases a <;> cases b <;> cases c <;> simp [optIntLt]
  omega

/-- C6 counterexample: for a user whose only attempt at the section is
unfinished, the selected `session` has a null `finished_at`, and
`last_correct_count` is nonetheless computed from it — refuting the claim
that the source session is always a finished attempt. -/
theorem last_session_unfinished_counterexample :
    (lastSessionChoice onlyUnfinishedDB 1 1).map (fun s => s.finished_at) =
        some none ∧
      (mkSectionDto onlyUnfinishedDB 1 1 "s" "t" "d" 0 false true none).map
        (fun d => d.last_correct_count) = some (some 1) := by
  decide

/-- C6 (amended): the code orders all of the user's attempts by
`finished_at` descending without filtering to finished ones (nulls
modelled as sorting last).  Whenever at least one finished attempt exists,
the selected session is finished and maximal by finish time among the
user's attempts, `last_correct_count` counts its correctly answered
questions, and `session_guid` is exposed only if its guid is set. -/
theorem last_session_amended (db : DB) (uid sid : Nat)
    (nm tm ds : String) (qc : Int) (is_exam answer_avail : Bool)
    (raf : Option PyDatetime) (sec : Section) (dto : SectionDto)
    (hsec : db.sections.find? (fun s => s.id == sid) = some sec)
    (hdto : mkSectionDto db uid sid nm tm ds qc is_exam answer_avail raf = some dto)
    (hfin : ∃ s ∈ current_user_sessions db uid sid, s.finished_at ≠ none) :
    ∃ s, lastSessionChoice db uid sid = some s ∧
      s ∈ current_user_sessions db uid sid ∧
      s.finished_at ≠ none ∧
      (∀ t ∈ current_user_sessions db uid sid,
        optIntLt s.finished_at t.finished_at = false) ∧
      dto.last_correct_count =
        some ((sessionQuestionsOf db s).filter
          (fun q => q.is_correct == some true)).length ∧
      dto.session_guid = (if pyTruthyStr s.guid then s.guid else none) := by
  obtain ⟨t, ht, htfin⟩ := hfin
  have hne : current_user_sessions db uid sid ≠ [] := List.ne_nil_of_mem ht
  obtain ⟨s, hs⟩ : ∃ s, lastSessionChoice db uid sid = some s := by
    rw [lastSessionChoice]
    have hsome := (pickFirstBy_isSome
      (fun a b => optIntLt a.finished_at b.finished_at)
      (current_user_sessions db uid sid)).mpr hne
    exact Option.isSome_iff_exists.mp hsome
  have hs' : pickFirstBy (fun a b => optIntLt a.finished_at b.finished_at)
      (current_user_sessions db uid sid) = some s := hs
  have hmax := pickFirstBy_max
    (fun a b => optIntLt a.finished_at b.finished_at)
    (fun a => optIntLt_irrefl a.finished_at)
    (fun a b => optIntLt_asymm a.finished_at b.finished_at)
    (fun a b c => optIntLt_negtrans a.finished_at b.finished_at c.finished_at)
    (current_user_sessions db uid sid) s hs'
  have hmem : s ∈ current_user_sessions db uid sid :=
    pickFirstBy_mem _ _ s hs'
  have hsfin : s.finished_at ≠ none := by
    intro hsnone
    have hts : optIntLt s.finished_at t.finished_at = false := hmax t ht
    cases htf : t.finished_at with
    | none => exact htfin htf
    | some v => rw [hsnone, htf] at hts; simp [optIntLt] at hts
  simp only [mkSectionDto, hsec, Option.some.injEq] at hdto
  subst hdto
  exact ⟨s, hs, hmem, hsfin, hmax, by simp [hs], by simp [hs]⟩

/-- Concrete instantiation of `last_session_amended`: with one finished
and one unfinished attempt, the finished one (guid set, one correct
answer) is selected. -/
theorem last_session_amended_witness :
    ∃ s, lastSessionChoice mixedDB 1 1 = some s ∧
      s ∈ current_user_sessions mixedDB 1 1 ∧
      s.finished_at ≠ none ∧
      (∀ t ∈ current_user_sessions mixedDB 1 1,
        optIntLt s.finished_at t.finished_at = false) ∧
      mixedDto.last_correct_count =
        some ((sessionQuestionsOf mixedDB s).filter
          (fun q => q.is_correct == some true)).length ∧
      mixedDto.session_guid = (if pyTruthyStr s.guid then s.guid else none) :=
  last_session_amended mixedDB 1 1 "s" "t" "d" 0 false true none
    mixedSection mixedDto rfl (by decide)
    ⟨{ id := 21, created_by_id := 1, section_id := 1, guid := some "sg",
       created_on := 6, finished_at := some 50 }, by decide, by decide⟩

/-- For every non-practice type label, `QuestionDto.__init__` leaves the
database untouched and attaches the shuffled dicts of the non-deleted
answers. -/
theorem mkQuestionDto_not_practice (unescape : String → String)
    (shuffle : List AnswerDict → List AnswerDict) (uid : Nat)
    (question : Question) (sqid : Nat) (g : String) (db : DB)
    (hq : get_question_type question.question_type ≠ "practice") :
    mkQuestionDto unescape shuffle uid question sqid g db =
      some ({ question_type := get_question_type question.question_type,
              question_text := unescape question.text,
              correct_count :=
                if get_question_type question.question_type == "variable" then
                  ((filteredAnswers db question.id).filter
                    (fun a => a.is_correct)).length
                else 0,
              images := question.images,
              practice_question := none,
              answers := some (shuffle ((filteredAnswers db question.id).map
                (answerDict (get_question_type question.question_type)))) }, db) := by
  have hbeq : (get_question_type question.question_type == "practice") = false :=
    beq_eq_false_iff_ne.mpr hq
  simp [mkQuestionDto, hbeq]

/-- C7: for a non-practice question, both of two constructions produce an
answer list that is a permutation of the dicts of exactly the non-deleted
answers, so the two lists carry the same multiset even though their order
may differ. -/
theorem answers_multiset_invariant (unescape : String → String)
    (shuffle1 shuffle2 : List AnswerDict → List AnswerDict)
    (hs1 : ∀ l, List.Perm (shuffle1 l) l) (hs2 : ∀ l, List.Perm (shuffle2 l) l)
    (uid : Nat) (question : Question) (sqid : Nat) (g1 g2 : String) (db : DB)
    (hq : get_question_type question.question_type ≠ "practice") :
    ∃ d1 d2 a1 a2,
      mkQuestionDto unescape shuffle1 uid question sqid g1 db = some (d1, db) ∧
      mkQuestionDto unescape shuffle2 uid question sqid g2 db = some (d2, db) ∧
      d1.answers = some a1 ∧ d2.answers = some a2 ∧
      List.Perm a1 ((filteredAnswers db question.id).map
        (answerDict (get_question_type question.question_type))) ∧
      List.Perm a2 ((filteredAnswers db question.id).map
        (answerDict (get_question_type question.question_type))) ∧
      (a1 : Multiset AnswerDict) = (a2 : Multiset AnswerDict) :=
  ⟨_, _, _, _,
    mkQuestionDto_not_practice unescape shuffle1 uid question sqid g1 db hq,
    mkQuestionDto_not_practice unescape shuffle2 uid question sqid g2 db hq,
    rfl, rfl, hs1 _, hs2 _,
    Multiset.coe_eq_coe.mpr ((hs1 _).trans (hs2 _).symm)⟩

/-- Concrete instantiation of `answers_multiset_invariant` on a
"variable" question with one deleted answer, using the identity and the
reversal as the two shuffle outcomes. -/
theorem answers_multiset_invariant_witness :
    ∃ d1 d2 a1 a2,
      mkQuestionDto id id 1 variableQuestion 5 "g" answersDB =
          some (d1, answersDB) ∧
      mkQuestionDto id List.reverse 1 variableQuestion 5 "g" answersDB =
          some (d2, answersDB) ∧
      d1.answers = some a1 ∧ d2.answers = some a2 ∧
      List.Perm a1 ((filteredAnswers answersDB variableQuestion.id).map
        (answerDict (get_question_type variableQuestion.question_type))) ∧
      List.Perm a2 ((filteredAnswers answersDB variableQuestion.id).map
        (answerDict (get_question_type variableQuestion.question_type))) ∧
      (a1 : Multiset AnswerDict) = (a2 : Multiset AnswerDict) :=
  answers_multiset_invariant id id List.reverse
    (fun l => List.Perm.refl l) (fun l => List.reverse_perm l)
    1 variableQuestion 5 "g" "g" answersDB (by decide)

/-- C8 counterexample: constructing `QuestionDto` for a question with the
unknown type code 7 and one live answer attaches a non-empty `answers`
list, refuting the claim that no answer-specific field is attached. -/
theorem unknown_type_answers_attached :
    (mkQuestionDto id id 1 unknownTypeQuestion 5 "g" answersDB).map
        (fun p => p.1.answers) =
      some (some [AnswerDict.variantKey "A", AnswerDict.variantKey "C"]) := by
  decide

/-- C8 (amended): an unknown type code maps to the empty label and no
practice-specific field is attached, but the generic answer list is still
built from the question's non-deleted answers (in `variant` shape) and
attached, with `correct_count` left at 0. -/
theorem unknown_question_type_amended (unescape : String → String)
    (shuffle : List AnswerDict → List AnswerDict) (uid : Nat)
    (question : Question) (sqid : Nat) (g : String) (db : DB)
    (h0 : question.question_type ≠ 0) (h1 : question.question_type ≠ 1)
    (h2 : question.question_type ≠ 2) (h3 : question.question_type ≠ 3) :
    get_question_type question.question_type = "" ∧
      mkQuestionDto unescape shuffle uid question sqid g db =
        some ({ question_type := "", question_text := unescape question.text,
                correct_count := 0, images := question.images,
                practice_question := none,
                answers := some (shuffle ((filteredAnswers db question.id).map
                  (answerDict ""))) }, db) := by
  have hlabel : get_question_type question.question_type = "" := by
    simp [get_question_type, h0, h1, h2, h3]
  refine ⟨hlabel, ?_⟩
  have hmk := mkQuestionDto_not_practice unescape shuffle uid question sqid g db
    (by rw [hlabel]; decide)
  rw [hmk, hlabel]
  rfl

/-- Concrete instantiation of `unknown_question_type_amended` at type
code 7. -/
theorem unknown_question_type_amended_witness :
    get_question_type unknownTypeQuestion.question_type = "" ∧
      mkQuestionDto id id 1 unknownTypeQuestion 5 "g" answersDB =
        some ({ question_type := "", question_text := id unknownTypeQuestion.text,
                correct_count := 0, images := unknownTypeQuestion.images,
                practice_question := none,
                answers := some (id ((filteredAnswers answersDB unknownTypeQuestion.id).map
                  (answerDict ""))) }, answersDB) :=
  unknown_question_type_amended id id 1 unknownTypeQuestion 5 "g" answersDB
    (by decide) (by decide) (by decide) (by decide)

/-- `find?` skips a prefix on which the predicate fails everywhere. -/
theorem find?_append_of_none (p : α → Bool) :
    ∀ (l₁ l₂ : List α), (∀ x ∈ l₁, p x = false) →
      (l₁ ++ l₂).find? p = l₂.find? p
  | [], _, _ => rfl
  | x :: xs, l₂, h => by
    rw [List.cons_append, List.find?_cons_of_neg]
    · exact find?_append_of_none p xs l₂ (fun y hy => h y (List.mem_cons_of_mem x hy))
    · simp [h x (List.mem_cons_self x xs)]

/-- Looking up a session question by id after binding a guid onto that id
finds the updated record. -/
theorem find?_map_guid_update (sqid : Nat) (g : String) :
    ∀ l : List SessionQuestion,
      (l.map (fun q =>
          if q.id == sqid then { q with network_guid := some g } else q)).find?
          (fun q => q.id == sqid) =
        (l.find? (fun q => q.id == sqid)).map
          (fun q => { q with network_guid := some g })
  | [] => rfl
  | q :: rest => by
    by_cases h : (q.id == sqid) = true
    · simp only [List.map_cons, List.find?_cons, if_pos h]
      simp [h]
    · have hf : (q.id == sqid) = false := by simpa using h
      simp only [List.map_cons, List.find?_cons, if_neg h]
      simp only [hf]
      exact find?_map_guid_update sqid g rest

/-- On a session question already bound to a (truthy) guid whose network
row exists, `PracticeQuestionDto.__init__` loads that row and performs no
write: the database is returned unchanged. -/
theorem mkPracticeQuestionDto_bound (user_id : Nat) (pq : PracticeQuestion)
    (sqid : Nat) (g2 : String) (db : DB) (sq : SessionQuestion) (g : String)
    (net_copy : Network)
    (hsq : db.session_questions.find? (fun q => q.id == sqid) = some sq)
    (hbound : sq.network_guid = some g) (hg : g ≠ "")
    (hnetc : db.networks.find? (fun n => n.guid == g) = some net_copy) :
    mkPracticeQuestionDto user_id pq sqid g2 db =
      some ({ description := pq.description,
              available_host := pq.available_host,
              available_l1_hub := pq.available_l1_hub,
              available_server := pq.available_server,
              available_l2_switch := pq.available_l2_switch,
              available_l3_router := pq.available_l3_router,
              start_configuration := reescapeQuotes net_copy.network,
              network_guid := net_copy.guid }, db) := by
  simp [mkPracticeQuestionDto, hsq, hbound, pyTruthyStr,
    beq_eq_false_iff_ne.mpr hg, hnetc]

/-- C1: on first access to a session question with no bound network, a
new network row is created with the fresh guid (distinct from the
template's), owned by the requesting user, described "Network copy" with
title and preview copied from the template, and that guid is persistently
bound to the session question; every subsequent construction for the same
session question returns the same view and leaves the database unchanged. -/
theorem practice_network_copy_on_first_access
    (user_id : Nat) (pq : PracticeQuestion) (sqid : Nat)
    (freshGuid : String) (db : DB) (sq : SessionQuestion) (net : Network)
    (hsq : db.session_questions.find? (fun q => q.id == sqid) = some sq)
    (hunbound : sq.network_guid = none)
    (hnet : db.networks.find? (fun n => n.guid == pq.start_configuration) = some net)
    (hfresh : ∀ n ∈ db.networks, n.guid ≠ freshGuid)
    (hne : freshGuid ≠ "") :
    ∃ dto db',
      mkPracticeQuestionDto user_id pq sqid freshGuid db = some (dto, db') ∧
      db'.networks = db.networks ++
        [{ guid := freshGuid, author_id := user_id, network := net.network,
           title := net.title, description := "Network copy",
           preview_uri := net.preview_uri, is_task := true }] ∧
      freshGuid ≠ net.guid ∧
      dto.network_guid = freshGuid ∧
      db'.session_questions.find? (fun q => q.id == sqid) =
        some { sq with network_guid := some freshGuid } ∧
      ∀ g2, mkPracticeQuestionDto user_id pq sqid g2 db' = some (dto, db') := by
  refine ⟨{ description := pq.description,
            available_host := pq.available_host,
            available_l1_hub := pq.available_l1_hub,
            available_server := pq.available_server,
            available_l2_switch := pq.available_l2_switch,
            available_l3_router := pq.available_l3_router,
            start_configuration := reescapeQuotes net.network,
            network_guid := freshGuid },
          { db with
            networks := db.networks ++
              [{ guid := freshGuid, author_id := user_id, network := net.network,
                 title := net.title, description := "Network copy",
                 preview_uri := net.preview_uri, is_task := true }],
            session_questions := db.session_questions.map
              (fun q => if q.id == sqid
                then { q with network_guid := some freshGuid } else q) },
          ?_, rfl, ?_, rfl, ?_, ?_⟩
  · simp [mkPracticeQuestionDto, hsq, hunbound, pyTruthyStr, hnet]
  · exact (hfresh net (List.mem_of_find?_eq_some hnet)).symm
  · show (db.session_questions.map
        (fun q => if q.id == sqid
          then { q with network_guid := some freshGuid } else q)).find?
        (fun q => q.id == sqid) = some { sq with network_guid := some freshGuid }
    rw [find?_map_guid_update, hsq]
    rfl
  · intro g2
    have hsq' : (db.session_questions.map
        (fun q => if q.id == sqid
          then { q with network_guid := some freshGuid } else q)).find?
        (fun q => q.id == sqid) = some { sq with network_guid := some freshGuid } := by
      rw [find?_map_guid_update, hsq]
      rfl
    have hnetc : (db.networks ++
        ([{ guid := freshGuid, author_id := user_id, network := net.network,
            title := net.title, description := "Network copy",
            preview_uri := net.preview_uri, is_task := true }] : List Network)).find?
        (fun n => n.guid == freshGuid) =
        some { guid := freshGuid, author_id := user_id, network := net.network,
               title := net.title, description := "Network copy",
               preview_uri := net.preview_uri, is_task := true } := by
      rw [find?_append_of_none]
      · exact List.find?_cons_of_pos _ (by simp)
      · intro n hn
        exact beq_eq_false_iff_ne.mpr (hfresh n hn)
    exact mkPracticeQuestionDto_bound user_id pq sqid g2
      { db with
        networks := db.networks ++
          [{ guid := freshGuid, author_id := user_id, network := net.network,
             title := net.title, description := "Network copy",
             preview_uri := net.preview_uri, is_task := true }],
        session_questions := db.session_questions.map
          (fun q => if q.id == sqid
            then { q with network_guid := some freshGuid } else q) }
      { sq with network_guid := some freshGuid } freshGuid
      { guid := freshGuid, author_id := user_id, network := net.network,
        title := net.title, description := "Network copy",
        preview_uri := net.preview_uri, is_task := true }
      hsq' rfl hne hnetc

/-- Concrete instantiation of `practice_network_copy_on_first_access`:
session question 5 starts unbound; the copy gets guid "G2" (distinct from
the template's "G"). -/
theorem practice_network_copy_witness :
    ∃ dto db',
      mkPracticeQuestionDto 1 practiceQ 5 "G2" practiceDB = some (dto, db') ∧
      db'.networks = practiceDB.networks ++
        [{ guid := "G2", author_id := 1, network := templateNet.network,
           title := templateNet.title, description := "Network copy",
           preview_uri := templateNet.preview_uri, is_task := true }] ∧
      "G2" ≠ templateNet.guid ∧
      dto.network_guid = "G2" ∧
      db'.session_questions.find? (fun q => q.id == 5) =
        some { id := 5, quiz_session_id := 2, is_correct := none,
               network_guid := some "G2" } ∧
      ∀ g2, mkPracticeQuestionDto 1 practiceQ 5 g2 db' = some (dto, db') :=
  practice_network_copy_on_first_access 1 practiceQ 5 "G2" practiceDB
    { id := 5, quiz_session_id := 2, is_correct := none, network_guid := none }
    templateNet rfl rfl rfl (by decide) (by decide)
